import Mathlib

/-!
Shallow embedding of `src/main.py`: a linear script that loads a service
account credential and then runs three independent lookup examples
(project, IP address, GKE cluster), each a try/except block around one
API call, printing results to the console.

The embedding models each external effect (credential load, API client
build, API call) by its outcome, supplied in an `Env`; `runScript`
replays the script on those outcomes and returns the trace of printed
lines together with the exit behaviour.
-/

namespace SourceChecks

/-- Python `str.split(sep)` on a single-character separator, over the
character list: consecutive separators yield empty fields, and the result
is never empty (the empty string gives `[[]]`). -/
def splitOnChar (c : Char) : List Char → List (List Char)
  | [] => [[]]
  | x :: xs =>
    if x = c then [] :: splitOnChar c xs
    else
      match splitOnChar c xs with
      | [] => [[x]]
      | g :: gs => (x :: g) :: gs

/-- Python `s.split(c)` for strings (embedding of the builtin used at
`main.py:74`: `response.get("name").split("/")`). -/
def pySplit (s : String) (c : Char) : List String :=
  (splitOnChar c s.data).map (fun l => ⟨l⟩)

/-- Python `lst[-1]`: the last element. `pySplit` never returns `[]`, so the
default is never used. -/
def pyLast (l : List String) : String :=
  l.getLastD ""

/-- An API JSON response, as the key/value pairs the script reads
(`dict` in Python; only string-valued fields are ever extracted). -/
abbrev Resp := List (String × String)

/-- Python `response.get(key)`: `some` value of the first matching key,
`none` when absent. -/
def Resp.get : Resp → String → Option String
  | [], _ => none
  | (k, v) :: rest, key => if k = key then some v else Resp.get rest key

/-- Stand-in for `json.dumps(response, indent=2)`: a rendering of the
response used only for display, never inspected by the script. -/
def dumps (r : Resp) : String :=
  String.intercalate ", " (r.map (fun p => p.1 ++ ": " ++ p.2))

-- Configuration literals (`main.py:21,52-53,113-116,178-182,194`).

/-- Configuration: `key_path` (`main.py:21`). -/
def key_path : String := "./my-service-account-keyfile.json"

/-- Configuration: `project_id` (`main.py:52`; reassigned to the same
literal at 113 and 178). -/
def project_id : String := "my-project"

/-- Configuration: `project_allow_list` (`main.py:53`). -/
def project_allow_list : List String := ["112233445566"]

/-- Configuration: `address_region` (`main.py:114`). -/
def address_region : String := "us-central1"

/-- Configuration: `address_name` (`main.py:115`). -/
def address_name : String := "us-central1-nat-ip01"

/-- Configuration: `address_allow_list` (`main.py:116`). -/
def address_allow_list : List String := ["34.107.21.167", "34.107.21.168"]

/-- Configuration: `cluster_name` (`main.py:179`). -/
def cluster_name : String := "cluster-1"

/-- Configuration: `location` (`main.py:182`). -/
def location : String := "us-central1"

/-- Constructed resource path (`main.py:194`). -/
def cluster_resource_name : String :=
  "projects/" ++ project_id ++ "/locations/" ++ location ++ "/clusters/" ++ cluster_name

/-- Outcome of loading the credential key file (`main.py:23-33`). -/
inductive CredResult
  | ok
  | fileNotFound
  | loadError (msg : String)
deriving DecidableEq

/-- Outcome of one `request.execute()` API call: a successful response,
an `HttpError` carrying an HTTP status, or any other exception. -/
inductive CallResult
  | success (resp : Resp)
  | httpError (status : Nat) (msg : String)
  | otherError (msg : String)
deriving DecidableEq

/-- Outcomes of every external effect the script performs: the credential
load, the three `discovery.build` calls (`none` = success, `some e` =
exception with message `e`), and the three API calls. -/
structure Env where
  cred : CredResult
  crmBuild : Option String
  projectCall : CallResult
  computeBuild : Option String
  addressCall : CallResult
  containerBuild : Option String
  clusterCall : CallResult
deriving DecidableEq

/-- The observable behaviour of one run: the printed lines in order, and
`some code` when the process terminated via `exit(code)` (`none` when the
script ran to the end). -/
structure Trace where
  output : List String
  exitCode : Option Nat
deriving DecidableEq

/-- Lines printed by the credential-loading block (`main.py:23-33`). -/
def credLines : CredResult → List String
  | CredResult.ok => ["Successfully loaded credentials from key file."]
  | CredResult.fileNotFound => ["ERROR: Service account key file not found at: " ++ key_path]
  | CredResult.loadError e => ["ERROR: Could not load credentials: " ++ e]

/-- Line printed when a `discovery.build` call raises
(`main.py:59,122,188`). -/
def buildErrLine (e : String) : String :=
  "ERROR: Could not build API client: " ++ e

-- Project example (`main.py:62-89`).

/-- Header printed at `main.py:64`. -/
def projectHdr : String := "Describing project: " ++ project_id

/-- Lines printed on success before field extraction (`main.py:64,70-72`). -/
def projectDumpBlock (r : Resp) : List String :=
  [projectHdr, "\n--- Project Description ---", dumps r, "--- End of Project Description ---"]

/-- Message at `main.py:76`. -/
def projectFoundMsg (n : String) : String :=
  "\nFound Project Number: " ++ n ++ " in Allow List"

/-- Message at `main.py:78`. -/
def projectNotFoundMsg : String :=
  "\nError: Project " ++ project_id ++ " not found in Allow List"

/-- The static possible-cause lines printed by the project example's
handler (`main.py:82-89`), independent of the exception. -/
def projectHintLines : List String :=
  ["Possible reasons:",
   "- The service account may not have the \x27resourcemanager.projects.get\x27 permission on this project.",
   "- The project ID might be incorrect.",
   "- Cloud Resource Manager API might not be enabled in the project associated with the service account."]

/-- The generic `except` block of the project example (`main.py:80-89`):
the failure line with the exception text, then the static hint lines. -/
def projectErrorLines (e : String) : List String :=
  ("ERROR: Failed to describe project " ++ project_id ++ ": " ++ e) :: projectHintLines

/-- Message of the `AttributeError` Python raises at `main.py:74` when
`response.get("name")` is `None` and `.split` is accessed on it. -/
def noneSplitMsg : String := "\x27NoneType\x27 object has no attribute \x27split\x27"

/-- The project example (`main.py:62-89`). On success the response is
dumped, then `response.get("name").split("/")[-1]` is tested against
`project_allow_list`; a missing `name` field makes the attribute access
raise, landing in the same generic handler as any API error. Every
exception is caught by the bare `except Exception` at `main.py:80`. -/
def projectExample : CallResult → List String
  | CallResult.success r =>
    projectDumpBlock r ++
      (match Resp.get r "name" with
       | some nm =>
         let project_number := pyLast (pySplit nm '/')
         if project_number ∈ project_allow_list then [projectFoundMsg project_number]
         else [projectNotFoundMsg]
       | none => projectErrorLines noneSplitMsg)
  | CallResult.httpError _ msg => projectHdr :: projectErrorLines msg
  | CallResult.otherError msg => projectHdr :: projectErrorLines msg

-- Address example (`main.py:125-157`).

/-- Header printed at `main.py:127-129`. -/
def addressHdr : String :=
  "\nLooking up address: " ++ address_name ++ " in project: " ++ project_id ++
    ", region: " ++ address_region

/-- Lines printed on success before field extraction (`main.py:127-137`). -/
def addressDumpBlock (r : Resp) : List String :=
  [addressHdr, "\n--- Address Details ---", dumps r, "--- End of Address Details ---"]

/-- Message at `main.py:141`. -/
def addressFoundMsg (ip : String) : String :=
  "\nFound IP Address: " ++ ip ++ " in Allow List"

/-- Message at `main.py:143`. -/
def addressNotFoundMsg : String :=
  "\nError: Address " ++ address_name ++ " not found in Allow List"

/-- Message at `main.py:147-149` (HTTP 403). -/
def address403Msg : String :=
  "ERROR: Permission denied. The service account likely needs \x27compute.addresses.get\x27 permission."

/-- Message at `main.py:151-153` (HTTP 404). -/
def address404Msg : String :=
  "ERROR: Address resource \x27" ++ address_name ++ "\x27 not found in region \x27" ++
    address_region ++ "\x27 for project \x27" ++ project_id ++ "\x27."

/-- The address example (`main.py:125-157`). On success
`response.get("address")` is tested against `address_allow_list`; a
missing field gives Python `None`, and `None in address_allow_list` is
`False`, so the not-found branch is taken without raising. `HttpError`s
branch on status 403 / 404 / other; any other exception is caught at
`main.py:156`. -/
def addressExample : CallResult → List String
  | CallResult.success r =>
    addressDumpBlock r ++
      (match Resp.get r "address" with
       | some ip =>
         if ip ∈ address_allow_list then [addressFoundMsg ip] else [addressNotFoundMsg]
       | none => [addressNotFoundMsg])
  | CallResult.httpError status msg =>
    addressHdr ::
      (if status = 403 then [address403Msg]
       else if status = 404 then [address404Msg]
       else ["ERROR: HTTP error occurred: " ++ msg])
  | CallResult.otherError msg =>
    [addressHdr, "ERROR: Failed to get address: " ++ msg]

-- Cluster example (`main.py:191-212`).

/-- Header printed at `main.py:195`. -/
def clusterHdr : String := "\nLooking up GKE cluster: " ++ cluster_resource_name

/-- Message at `main.py:206` (HTTP 403). -/
def cluster403Msg : String :=
  "ERROR: Permission denied. The service account likely needs \x27container.clusters.get\x27 permission."

/-- Message at `main.py:208` (HTTP 404). -/
def cluster404Msg : String :=
  "ERROR: GKE Cluster \x27" ++ cluster_name ++ "\x27 not found in location \x27" ++
    location ++ "\x27 for project \x27" ++ project_id ++ "\x27."

/-- The cluster example (`main.py:191-212`). On success the response is
only dumped: no field is extracted and no allow-list is consulted.
`HttpError`s branch on status 403 / 404 / other; any other exception is
caught at `main.py:211`. -/
def clusterExample : CallResult → List String
  | CallResult.success r =>
    [clusterHdr, "\n--- GKE Cluster Details ---", dumps r, "--- End of GKE Cluster Details ---"]
  | CallResult.httpError status msg =>
    clusterHdr ::
      (if status = 403 then [cluster403Msg]
       else if status = 404 then [cluster404Msg]
       else ["ERROR: HTTP error occurred: " ++ msg])
  | CallResult.otherError msg =>
    [clusterHdr, "ERROR: Failed to get GKE cluster: " ++ msg]

/-- The whole script (`main.py` top to bottom). Credential-load failure
exits with code 1 before anything else (`main.py:28-33`); each of the
three `discovery.build` failures also exits with code 1
(`main.py:56-60,119-123,185-189`); the three examples otherwise run in
sequence regardless of each other's outcomes. -/
def runScript (env : Env) : Trace :=
  match env.cred with
  | CredResult.ok =>
    match env.crmBuild with
    | some e => ⟨credLines CredResult.ok ++ [buildErrLine e], some 1⟩
    | none =>
      let out1 := credLines CredResult.ok ++ projectExample env.projectCall
      match env.computeBuild with
      | some e => ⟨out1 ++ [buildErrLine e], some 1⟩
      | none =>
        let out2 := out1 ++ addressExample env.addressCall
        match env.containerBuild with
        | some e => ⟨out2 ++ [buildErrLine e], some 1⟩
        | none => ⟨out2 ++ clusterExample env.clusterCall, none⟩
  | c => ⟨credLines c, some 1⟩

/-- Decidable check that a printed line mentions the allow list (used to
state that an output performs no allow-list comparison). -/
def mentionsAllowList (l : String) : Bool :=
  ((pySplit l 'A').tail).any (fun t => "llow List".isPrefixOf t)

-- Concrete environments used to exercise the script at specific inputs.

/-- Run in which example 2's `discovery.build("compute", ...)` raises while
everything before it succeeded. -/
def envComputeBuildFail : Env :=
  ⟨CredResult.ok, none, CallResult.success [("name", "projects/112233445566")],
    some "quota exceeded", CallResult.success [], none, CallResult.success []⟩

/-- Run in which example 1's API call fails with an HTTP 500 while both
later examples succeed. -/
def envProjectCallFail : Env :=
  ⟨CredResult.ok, none, CallResult.httpError 500 "backend error", none,
    CallResult.success [("address", "34.107.21.167")], none,
    CallResult.success [("name", "cluster-1")]⟩

/-- Run in which the credential key file is missing. -/
def envNoKeyFile : Env :=
  ⟨CredResult.fileNotFound, none, CallResult.success [], none,
    CallResult.success [], none, CallResult.success []⟩

/-- Run in which example 1's response lacks a `name` field and the later
examples succeed. -/
def envProjectNoName : Env :=
  ⟨CredResult.ok, none, CallResult.success [("displayName", "My Project")], none,
    CallResult.success [("address", "34.107.21.167")], none,
    CallResult.success [("name", "cluster-1")]⟩

-- Helper lemmas about `splitOnChar`: it never returns the empty list, its
-- length counts the separators, and its last field is the part of the
-- input after the last separator.

theorem splitOnChar_ne_nil (c : Char) (l : List Char) : splitOnChar c l ≠ [] := by
  induction l with
  | nil => simp [splitOnChar]
  | cons x xs ih =>
    by_cases hx : x = c
    · simp [splitOnChar, hx]
    · simp only [splitOnChar, if_neg hx]
      rcases hsp : splitOnChar c xs with _ | ⟨g, gs⟩
      · simp
      · simp

theorem splitOnChar_length (c : Char) (l : List Char) :
    (splitOnChar c l).length = l.count c + 1 := by
  induction l with
  | nil => simp [splitOnChar]
  | cons x xs ih =>
    by_cases hx : x = c
    · subst hx
      simp [splitOnChar, List.count_cons, ih]
    · simp only [splitOnChar, if_neg hx]
      rcases hsp : splitOnChar c xs with _ | ⟨g, gs⟩
      · exact absurd hsp (splitOnChar_ne_nil c xs)
      · rw [hsp] at ih
        simp only [List.length_cons] at ih
        simp [List.count_cons, hx, ih]

theorem splitOnChar_no_sep (c : Char) (l : List Char) (h : c ∉ l) :
    splitOnChar c l = [l] := by
  induction l with
  | nil => simp [splitOnChar]
  | cons x xs ih =>
    simp only [List.mem_cons, not_or] at h
    have hx : x ≠ c := fun hxc => h.1 hxc.symm
    simp only [splitOnChar, if_neg hx, ih h.2]

theorem splitOnChar_getLast?_sep (c : Char) (l1 l2 : List Char) :
    (splitOnChar c (l1 ++ c :: l2)).getLast? = (splitOnChar c l2).getLast? := by
  induction l1 with
  | nil =>
    simp only [List.nil_append, splitOnChar, if_pos rfl]
    rcases hsp : splitOnChar c l2 with _ | ⟨g, gs⟩
    · exact absurd hsp (splitOnChar_ne_nil c l2)
    · simp
  | cons x l1 ih =>
    by_cases hx : x = c
    · simp only [List.cons_append, splitOnChar, if_pos hx]
      rcases hsp : splitOnChar c (l1 ++ c :: l2) with _ | ⟨g, gs⟩
      · exact absurd hsp (splitOnChar_ne_nil _ _)
      · rw [hsp] at ih
        simpa using ih
    · simp only [List.cons_append, splitOnChar, if_neg hx]
      rcases hsp : splitOnChar c (l1 ++ c :: l2) with _ | ⟨g, gs⟩
      · exact absurd hsp (splitOnChar_ne_nil _ _)
      · rcases gs with _ | ⟨y, ys⟩
        · have hlen := splitOnChar_length c (l1 ++ c :: l2)
          rw [hsp] at hlen
          simp [List.count_append, List.count_cons] at hlen
        · rw [hsp] at ih
          simpa using ih

theorem pyLast_pySplit_after_last_sep (p suf : String) (h : ('/' : Char) ∉ suf.data) :
    pyLast (pySplit (p ++ "/" ++ suf) '/') = suf := by
  have hdata : (p ++ "/" ++ suf).data = p.data ++ '/' :: suf.data := by
    simp [String.data_append]
  have hlast : (splitOnChar '/' (p ++ "/" ++ suf).data).getLast? = some suf.data := by
    rw [hdata, splitOnChar_getLast?_sep, splitOnChar_no_sep '/' suf.data h]
    simp
  simp only [pyLast, pySplit, List.getLastD_eq_getLast?, List.getLast?_map, hlast]
  rfl

/-- Claim C1, counterexample: the claim says a failure to construct an
example's API client is non-fatal, but when `discovery.build("compute",
...)` raises at `main.py:120` the script calls `exit(1)` (`main.py:123`),
so the process terminates and neither the address example nor the cluster
example runs (their header lines are never printed). -/
theorem C1_counterexample :
    (runScript envComputeBuildFail).exitCode = some 1 ∧
    addressHdr ∉ (runScript envComputeBuildFail).output ∧
    clusterHdr ∉ (runScript envComputeBuildFail).output := by
  decide

/-- Claim C1, amended: the script completes (rather than exiting with
code 1) exactly when the credential load and all three API client builds
succeed; when they do, the outcomes of the three API calls never
terminate the process, and all three examples contribute their output in
sequence. -/
theorem C1_amended_fatality (env : Env) :
    ((runScript env).exitCode = none ↔
      env.cred = CredResult.ok ∧ env.crmBuild = none ∧ env.computeBuild = none ∧
        env.containerBuild = none) ∧
    (env.cred = CredResult.ok ∧ env.crmBuild = none ∧ env.computeBuild = none ∧
        env.containerBuild = none →
      (runScript env).output =
        "Successfully loaded credentials from key file." ::
          (projectExample env.projectCall ++ addressExample env.addressCall ++
            clusterExample env.clusterCall)) := by
  obtain ⟨cred, b1, p, b2, a, b3, c⟩ := env
  cases cred <;> cases b1 <;> cases b2 <;> cases b3 <;>
    simp [runScript, credLines, List.append_assoc]

/-- Claim C1, witness: a run in which example 1's API call fails with an
HTTP 500 still completes and still prints all three examples' output. -/
theorem C1_amended_fatality_witness :
    (runScript envProjectCallFail).exitCode = none ∧
    (runScript envProjectCallFail).output =
      "Successfully loaded credentials from key file." ::
        (projectExample (CallResult.httpError 500 "backend error") ++
          addressExample (CallResult.success [("address", "34.107.21.167")]) ++
          clusterExample (CallResult.success [("name", "cluster-1")])) :=
  ⟨((C1_amended_fatality envProjectCallFail).1).mpr ⟨rfl, rfl, rfl, rfl⟩,
    (C1_amended_fatality envProjectCallFail).2 ⟨rfl, rfl, rfl, rfl⟩⟩

/-- Claim C2, counterexample: the claim quantifies over all three
validators, but the cluster validator makes no allow-list comparison at
all: on a concrete successful response its output is exactly the header
and dump lines, and no printed line mentions the allow list, neither as
found nor as not found. -/
theorem C2_counterexample :
    clusterExample (CallResult.success [("name", "cluster-1")]) =
      [clusterHdr, "\n--- GKE Cluster Details ---", "name: cluster-1",
        "--- End of GKE Cluster Details ---"] ∧
    (clusterExample (CallResult.success [("name", "cluster-1")])).all
      (fun l => !(mentionsAllowList l)) = true :=
  ⟨rfl, by decide⟩

/-- Claim C2, amended: for the project and address validators, a
successful response whose extracted field (the last `/`-separated
component of `name`, resp. the `address` field) is in that validator's
allow-list produces the found message, and one whose field is not in the
list produces the not-found message; the cluster validator performs no
such comparison. -/
theorem C2_amended_allow_lists (r1 r2 : Resp) (nm ip : String)
    (h1 : Resp.get r1 "name" = some nm) (h2 : Resp.get r2 "address" = some ip) :
    ((pyLast (pySplit nm '/') ∈ project_allow_list →
        projectExample (CallResult.success r1) =
          projectDumpBlock r1 ++ [projectFoundMsg (pyLast (pySplit nm '/'))]) ∧
     (pyLast (pySplit nm '/') ∉ project_allow_list →
        projectExample (CallResult.success r1) =
          projectDumpBlock r1 ++ [projectNotFoundMsg])) ∧
    ((ip ∈ address_allow_list →
        addressExample (CallResult.success r2) =
          addressDumpBlock r2 ++ [addressFoundMsg ip]) ∧
     (ip ∉ address_allow_list →
        addressExample (CallResult.success r2) =
          addressDumpBlock r2 ++ [addressNotFoundMsg])) := by
  refine ⟨⟨?_, ?_⟩, ?_, ?_⟩ <;> intro hmem <;>
    simp [projectExample, addressExample, h1, h2, hmem]

/-- Claim C2, witness: the project validator finds the suffix
`112233445566` in its allow list, and the address validator reports an IP
outside its allow list as not found. -/
theorem C2_amended_allow_lists_witness :
    projectExample (CallResult.success [("name", "projects/112233445566")]) =
      projectDumpBlock [("name", "projects/112233445566")] ++
        [projectFoundMsg (pyLast (pySplit "projects/112233445566" '/'))] ∧
    addressExample (CallResult.success [("address", "10.0.0.1")]) =
      addressDumpBlock [("address", "10.0.0.1")] ++ [addressNotFoundMsg] :=
  ⟨(C2_amended_allow_lists [("name", "projects/112233445566")] [("address", "10.0.0.1")]
      "projects/112233445566" "10.0.0.1" rfl rfl).1.1 (by decide),
   (C2_amended_allow_lists [("name", "projects/112233445566")] [("address", "10.0.0.1")]
      "projects/112233445566" "10.0.0.1" rfl rfl).2.2 (by decide)⟩

/-- Claim C3, counterexample: the claim says every one of the three
procedures classifies failures by HTTP status, but the project example
catches every exception in one generic handler (`main.py:80-89`): on an
HTTP 403 its output is identical to its output on an HTTP 404 and is the
generic failure line plus the static hints, not a tailored 403 message. -/
theorem C3_counterexample :
    projectExample (CallResult.httpError 403 "forbidden") =
      projectExample (CallResult.httpError 404 "forbidden") ∧
    projectExample (CallResult.httpError 403 "forbidden") =
      projectHdr :: projectErrorLines "forbidden" :=
  ⟨rfl, rfl⟩

/-- Claim C3, amended: the address and cluster procedures classify
`HttpError`s by status: 403 and 404 produce the tailored messages, any
other status produces the generic HTTP error line with the raw error; the
project procedure instead prints its generic failure line and static
hints for every failing status. -/
theorem C3_amended_classification (s : Nat) (msg : String) (h3 : s ≠ 403) (h4 : s ≠ 404) :
    addressExample (CallResult.httpError 403 msg) = [addressHdr, address403Msg] ∧
    addressExample (CallResult.httpError 404 msg) = [addressHdr, address404Msg] ∧
    addressExample (CallResult.httpError s msg) =
      [addressHdr, "ERROR: HTTP error occurred: " ++ msg] ∧
    clusterExample (CallResult.httpError 403 msg) = [clusterHdr, cluster403Msg] ∧
    clusterExample (CallResult.httpError 404 msg) = [clusterHdr, cluster404Msg] ∧
    clusterExample (CallResult.httpError s msg) =
      [clusterHdr, "ERROR: HTTP error occurred: " ++ msg] ∧
    projectExample (CallResult.httpError s msg) = projectHdr :: projectErrorLines msg := by
  refine ⟨rfl, rfl, ?_, rfl, rfl, ?_, rfl⟩ <;>
    simp [addressExample, clusterExample, h3, h4]

/-- Claim C3, witness: an HTTP 500 on the address lookup produces the
generic HTTP error line. -/
theorem C3_amended_classification_witness :
    addressExample (CallResult.httpError 500 "backend error") =
      [addressHdr, "ERROR: HTTP error occurred: " ++ "backend error"] :=
  (C3_amended_classification 500 "backend error" (by decide) (by decide)).2.2.1

/-- Helper: a run with a loaded credential and three successful client
builds prints the credential line followed by the three examples' output
in order, and does not exit. -/
theorem run_ok_output (p a c : CallResult) :
    runScript ⟨CredResult.ok, none, p, none, a, none, c⟩ =
      ⟨"Successfully loaded credentials from key file." ::
         (projectExample p ++ (addressExample a ++ clusterExample c)), none⟩ := by
  simp [runScript, credLines]

/-- Claim C4: on a successful response whose `name` is any string ending
in `/` followed by a slash-free suffix, the project validator reports
membership of exactly that suffix in `project_allow_list`
(`main.py:74-78`: `response.get("name").split("/")[-1]`). -/
theorem C4_project_suffix (r : Resp) (p suf : String)
    (h : Resp.get r "name" = some (p ++ "/" ++ suf)) (hs : ('/' : Char) ∉ suf.data) :
    projectExample (CallResult.success r) =
      projectDumpBlock r ++
        (if suf ∈ project_allow_list then [projectFoundMsg suf]
         else [projectNotFoundMsg]) := by
  have hl := pyLast_pySplit_after_last_sep p suf hs
  simp [projectExample, h, hl]

/-- Claim C4, witness: the name `projects/112233445566` yields the suffix
`112233445566`, which is in the allow list. -/
theorem C4_project_suffix_witness :
    projectExample (CallResult.success [("name", "projects/112233445566")]) =
      projectDumpBlock [("name", "projects/112233445566")] ++
        (if "112233445566" ∈ project_allow_list then [projectFoundMsg "112233445566"]
         else [projectNotFoundMsg]) :=
  C4_project_suffix [("name", "projects/112233445566")] "projects" "112233445566"
    (by decide) (by decide)

/-- Claim C5: the address validator reports membership of the `address`
field in `address_allow_list` on success, and classifies `HttpError`s as
permission denied for 403, not found for 404, and the generic HTTP error
line for any other status (`main.py:139-155`). -/
theorem C5_address_validator (r : Resp) (ip : String) (s : Nat) (msg : String)
    (h : Resp.get r "address" = some ip) (h3 : s ≠ 403) (h4 : s ≠ 404) :
    (addressExample (CallResult.success r) =
       addressDumpBlock r ++
         (if ip ∈ address_allow_list then [addressFoundMsg ip]
          else [addressNotFoundMsg])) ∧
    addressExample (CallResult.httpError 403 msg) = [addressHdr, address403Msg] ∧
    addressExample (CallResult.httpError 404 msg) = [addressHdr, address404Msg] ∧
    addressExample (CallResult.httpError s msg) =
      [addressHdr, "ERROR: HTTP error occurred: " ++ msg] := by
  refine ⟨?_, rfl, rfl, ?_⟩
  · simp [addressExample, h]
  · simp [addressExample, h3, h4]

/-- Claim C5, witness: the IP `34.107.21.167` is found in the allow list,
and an HTTP 500 produces the generic HTTP error line. -/
theorem C5_address_validator_witness :
    (addressExample (CallResult.success [("address", "34.107.21.167")]) =
       addressDumpBlock [("address", "34.107.21.167")] ++
         (if "34.107.21.167" ∈ address_allow_list
          then [addressFoundMsg "34.107.21.167"] else [addressNotFoundMsg])) ∧
    addressExample (CallResult.httpError 500 "oops") =
      [addressHdr, "ERROR: HTTP error occurred: " ++ "oops"] :=
  ⟨(C5_address_validator [("address", "34.107.21.167")] "34.107.21.167" 500 "oops"
      rfl (by decide) (by decide)).1,
   (C5_address_validator [("address", "34.107.21.167")] "34.107.21.167" 500 "oops"
      rfl (by decide) (by decide)).2.2.2⟩

/-- Claim C6: the cluster validator prints exactly the header and dump
lines on success — it extracts no field and consults no allow list — and
classifies failures like the address validator: 403, 404, other status,
and non-HTTP exceptions (`main.py:192-212`). -/
theorem C6_cluster_validator (r : Resp) (s : Nat) (msg : String)
    (h3 : s ≠ 403) (h4 : s ≠ 404) :
    clusterExample (CallResult.success r) =
      [clusterHdr, "\n--- GKE Cluster Details ---", dumps r,
        "--- End of GKE Cluster Details ---"] ∧
    clusterExample (CallResult.httpError 403 msg) = [clusterHdr, cluster403Msg] ∧
    clusterExample (CallResult.httpError 404 msg) = [clusterHdr, cluster404Msg] ∧
    clusterExample (CallResult.httpError s msg) =
      [clusterHdr, "ERROR: HTTP error occurred: " ++ msg] ∧
    clusterExample (CallResult.otherError msg) =
      [clusterHdr, "ERROR: Failed to get GKE cluster: " ++ msg] := by
  refine ⟨rfl, rfl, rfl, ?_, rfl⟩
  simp [clusterExample, h3, h4]

/-- Claim C6, witness: a successful describe prints only the dump block,
and an HTTP 500 produces the generic HTTP error line. -/
theorem C6_cluster_validator_witness :
    clusterExample (CallResult.success [("name", "cluster-1")]) =
      [clusterHdr, "\n--- GKE Cluster Details ---", dumps [("name", "cluster-1")],
        "--- End of GKE Cluster Details ---"] ∧
    clusterExample (CallResult.httpError 500 "oops") =
      [clusterHdr, "ERROR: HTTP error occurred: " ++ "oops"] :=
  ⟨(C6_cluster_validator [("name", "cluster-1")] 500 "oops" (by decide) (by decide)).1,
   (C6_cluster_validator [("name", "cluster-1")] 500 "oops"
      (by decide) (by decide)).2.2.2.1⟩

/-- Claim C7: whatever way the project example fails — an `HttpError`,
any other exception, or the `AttributeError` from a success response with
no `name` field — the static hint lines are printed, the process does not
exit, and the address and cluster examples still contribute their output
after it. -/
theorem C7_project_nonfatal (a c : CallResult) (pc : CallResult) (s : Nat) (msg : String)
    (hp : pc = CallResult.httpError s msg ∨ pc = CallResult.otherError msg ∨
          (∃ r, pc = CallResult.success r ∧ Resp.get r "name" = none)) :
    projectHintLines ⊆
      (runScript ⟨CredResult.ok, none, pc, none, a, none, c⟩).output ∧
    (runScript ⟨CredResult.ok, none, pc, none, a, none, c⟩).exitCode = none ∧
    (addressExample a ++ clusterExample c) <:+
      (runScript ⟨CredResult.ok, none, pc, none, a, none, c⟩).output := by
  rw [run_ok_output]
  have hsub : projectHintLines ⊆ projectExample pc := by
    rcases hp with hp | hp | ⟨r, hp, hr⟩ <;> subst hp
    · exact fun x hx => List.mem_cons_of_mem _ (List.mem_cons_of_mem _ hx)
    · exact fun x hx => List.mem_cons_of_mem _ (List.mem_cons_of_mem _ hx)
    · intro x hx
      simp only [projectExample, hr]
      exact List.mem_append_right _ (List.mem_cons_of_mem _ hx)
  refine ⟨?_, rfl, "Successfully loaded credentials from key file." :: projectExample pc, rfl⟩
  intro x hx
  exact List.mem_cons_of_mem _ (List.mem_append_left _ (hsub hx))

/-- Claim C7, witness: an HTTP 500 in the project example leaves the hint
lines in the output, the exit code unset, and the two later examples'
output in place. -/
theorem C7_project_nonfatal_witness :
    projectHintLines ⊆ (runScript envProjectCallFail).output ∧
    (runScript envProjectCallFail).exitCode = none ∧
    (addressExample (CallResult.success [("address", "34.107.21.167")]) ++
      clusterExample (CallResult.success [("name", "cluster-1")])) <:+
      (runScript envProjectCallFail).output :=
  C7_project_nonfatal (CallResult.success [("address", "34.107.21.167")])
    (CallResult.success [("name", "cluster-1")])
    (CallResult.httpError 500 "backend error") 500 "backend error" (Or.inl rfl)

/-- Claim C8: whenever the credential load fails, the whole run is the
single credential error line followed by `exit(1)`: no client is built,
no example runs, and the trace is independent of every API outcome. -/
theorem C8_cred_failure_halts (env : Env) (h : env.cred ≠ CredResult.ok) :
    runScript env = ⟨credLines env.cred, some 1⟩ := by
  obtain ⟨cred, b1, p, b2, a, b3, c⟩ := env
  cases cred
  · exact absurd rfl h
  · rfl
  · rfl

/-- Claim C8, witness: a missing key file produces exactly the not-found
error line and exit code 1. -/
theorem C8_cred_failure_halts_witness :
    runScript envNoKeyFile =
      ⟨["ERROR: Service account key file not found at: ./my-service-account-keyfile.json"],
        some 1⟩ :=
  C8_cred_failure_halts envNoKeyFile (by decide)

/-- Claim C9: a successful address response with no `address` field takes
the not-found branch — Python `None in address_allow_list` is `False` —
so the example prints its dump block and the not-found message and raises
nothing. -/
theorem C9_missing_address_field (r : Resp) (h : Resp.get r "address" = none) :
    addressExample (CallResult.success r) =
      addressDumpBlock r ++ [addressNotFoundMsg] := by
  simp [addressExample, h]

/-- Claim C9, witness: a response carrying only a `status` field is
reported as not found in the allow list. -/
theorem C9_missing_address_field_witness :
    addressExample (CallResult.success [("status", "RESERVED")]) =
      addressDumpBlock [("status", "RESERVED")] ++ [addressNotFoundMsg] :=
  C9_missing_address_field [("status", "RESERVED")] rfl

/-- Claim C10: a successful project response with no `name` field makes
the attribute access at `main.py:74` raise, which the example's generic
handler turns into the failure line with the `NoneType` message and the
static hints; the run completes and the later examples still execute. -/
theorem C10_missing_name_field (a c : CallResult) (r : Resp)
    (hr : Resp.get r "name" = none) :
    (runScript ⟨CredResult.ok, none, CallResult.success r, none, a, none, c⟩).output =
      "Successfully loaded credentials from key file." ::
        ((projectDumpBlock r ++ projectErrorLines noneSplitMsg) ++
          (addressExample a ++ clusterExample c)) ∧
    (runScript ⟨CredResult.ok, none, CallResult.success r, none, a, none, c⟩).exitCode =
      none := by
  rw [run_ok_output]
  refine ⟨?_, rfl⟩
  simp [projectExample, hr]

/-- Claim C10, witness: a response carrying only `displayName` is handled
by the generic project handler and the later examples still run. -/
theorem C10_missing_name_field_witness :
    (runScript envProjectNoName).output =
      "Successfully loaded credentials from key file." ::
        ((projectDumpBlock [("displayName", "My Project")] ++
            projectErrorLines noneSplitMsg) ++
          (addressExample (CallResult.success [("address", "34.107.21.167")]) ++
            clusterExample (CallResult.success [("name", "cluster-1")]))) ∧
    (runScript envProjectNoName).exitCode = none :=
  C10_missing_name_field (CallResult.success [("address", "34.107.21.167")])
    (CallResult.success [("name", "cluster-1")]) [("displayName", "My Project")] rfl

end SourceChecks
